import Mathlib

/-!
Verification of the OAuth2 token lifecycle manager of mcp-autodesk-build
(src/src/auth.js, class AuthManager). The JavaScript methods are embedded
as pure Lean functions: time is an explicit `now : Int` parameter
(milliseconds since epoch, as `Date.now()` returns), the network is an
explicit oracle value describing what the provider answers, and the
mutable fields of the AuthManager instance together with the persisted
mirror in TokenStorage form an explicit state record that every operation
takes and returns.
-/

namespace AutodeskBuild

/-- Body of a provider token-endpoint success response, as consumed by
src/src/auth.js: fields access_token, refresh_token and expires_in, each
of which may be absent (JavaScript undefined). -/
structure TokenResponse where
  access_token : Option String
  refresh_token : Option String
  expires_in : Option Int
deriving Repr, DecidableEq

/-- Modelled from the spec: the TokenStorage record (src/utils/tokenStorage.js
is not among the sources; per the spec, the store durably holds at most one
record and getTokens, saveTokens, clearTokens read, overwrite and empty it).
The stored fields are exactly what AuthManager.saveTokens passes:
accessToken, refreshToken and the absolute expiry timestamp. -/
structure StoredTokens where
  accessToken : Option String
  refreshToken : Option String
  expiresAt : Int
deriving Repr, DecidableEq

/-- The mutable state of an AuthManager instance (fields set in the
constructor of src/src/auth.js) together with the persisted mirror held
by its TokenStorage (`store = none` means the store holds no record). -/
structure AuthState where
  accessToken : Option String
  refreshToken : Option String
  tokenExpiry : Option Int
  isAuthenticated : Bool
  store : Option StoredTokens
deriving Repr, DecidableEq

/-- JavaScript truthiness test used by auth.js on optional strings:
undefined and the empty string are falsy. -/
def strFalsy : Option String → Bool
  | none => true
  | some s => s = ""

/-- The fallback `tokenData.refresh_token || this.refreshToken` of
saveTokens (src/src/auth.js line 147): keep the old refresh token when the
incoming one is falsy. -/
def orKeepRefresh (incoming old : Option String) : Option String :=
  match incoming with
  | none => old
  | some s => if s = "" then old else some s

/-- The fallback `tokenData.expires_in || 3600` of saveTokens
(src/src/auth.js line 150): a falsy expires_in (absent or 0) becomes 3600. -/
def effectiveExpiresIn (r : TokenResponse) : Int :=
  match r.expires_in with
  | none => 3600
  | some n => if n = 0 then 3600 else n

/-- AuthManager.saveTokens (src/src/auth.js lines 145-161): overwrite the
access token, keep the old refresh token unless the response carries a
truthy new one, set expiry to now + (expiresIn - 300) seconds (stored in
milliseconds), mark authenticated, and persist the resulting record. -/
def saveTokens (now : Int) (s : AuthState) (r : TokenResponse) : AuthState :=
  let access := r.access_token
  let refresh := orKeepRefresh r.refresh_token s.refreshToken
  let expiry := now + (effectiveExpiresIn r - 300) * 1000
  { accessToken := access
    refreshToken := refresh
    tokenExpiry := some expiry
    isAuthenticated := true
    store := some { accessToken := access, refreshToken := refresh, expiresAt := expiry } }

/-- AuthManager.clearTokens (src/src/auth.js lines 166-176): null out all
in-memory fields and clear the persisted record. -/
def clearTokens (_s : AuthState) : AuthState :=
  { accessToken := none
    refreshToken := none
    tokenExpiry := none
    isAuthenticated := false
    store := none }

/-- AuthManager.isTokenExpired (src/src/auth.js lines 182-185): true when
no expiry is set, else `new Date() >= this.tokenExpiry`. -/
def isTokenExpired (now : Int) (s : AuthState) : Bool :=
  match s.tokenExpiry with
  | none => true
  | some e => decide (e ≤ now)

/-- The error values thrown by auth.js, one constructor per distinct
`throw new Error(...)` site. -/
inductive AuthError where
  | noRefreshToken
  | refreshFailed
  | notAuthenticated
  | authFailed
deriving Repr, DecidableEq

/-- The message string of each thrown error, as written in src/src/auth.js. -/
def errorMessage : AuthError → String
  | .noRefreshToken => "No refresh token available"
  | .refreshFailed => "Token refresh failed - please re-authenticate"
  | .notAuthenticated => "Not authenticated - please run with --auth flag to authenticate"
  | .authFailed => "Authentication failed"

/-- What the provider answers to one refresh-token request: a success body,
a rejection whose error payload signals an invalid or revoked grant
(for example invalid_grant), or a transient network / 5xx failure. auth.js
reaches all three through the single catch clause at lines 132-138. -/
inductive RefreshOutcome where
  | success (r : TokenResponse)
  | invalidGrant (payload : String)
  | networkError
deriving Repr, DecidableEq

/-- Result of one refreshAccessToken call: the state after the call, the
outcome (ok or thrown error), and how many refresh requests reached the
provider token endpoint during the call. -/
structure RefreshResult where
  state : AuthState
  result : Except AuthError Unit
  requests : Nat
deriving Repr

/-- AuthManager.refreshAccessToken (src/src/auth.js lines 103-139): with a
falsy stored refresh token, throw before any network activity; otherwise
send one request and, on success, save the response; on any failure
(grant-invalid rejection or transient error alike, the catch clause does
not distinguish) clear all tokens and throw. -/
def refreshAccessToken (now : Int) (outcome : RefreshOutcome) (s : AuthState) :
    RefreshResult :=
  if strFalsy s.refreshToken then
    { state := s, result := .error .noRefreshToken, requests := 0 }
  else
    match outcome with
    | .success r =>
        { state := saveTokens now s r, result := .ok (), requests := 1 }
    | .invalidGrant _ =>
        { state := clearTokens s, result := .error .refreshFailed, requests := 1 }
    | .networkError =>
        { state := clearTokens s, result := .error .refreshFailed, requests := 1 }

/-- Result of one getAccessToken call: the state after the call, the
returned access token or thrown error, the number of refresh requests sent,
and the provider answers not yet consumed. -/
structure TokenFetch where
  state : AuthState
  result : Except AuthError (Option String)
  requests : Nat
  pending : List RefreshOutcome
deriving Repr

/-- Draw the next provider answer from the oracle list (an exhausted
oracle answers with a network failure). -/
def takeOutcome : List RefreshOutcome → RefreshOutcome × List RefreshOutcome
  | [] => (.networkError, [])
  | o :: rest => (o, rest)

/-- AuthManager.getAccessToken (src/src/auth.js lines 191-201): throw when
not authenticated; refresh first when the token is expired; then return the
current accessToken field. -/
def getAccessToken (now : Int) (os : List RefreshOutcome) (s : AuthState) :
    TokenFetch :=
  if s.isAuthenticated = false then
    { state := s, result := .error .notAuthenticated, requests := 0, pending := os }
  else if isTokenExpired now s then
    let p := takeOutcome os
    let r := refreshAccessToken now p.1 s
    match r.result with
    | .ok _ =>
        { state := r.state, result := .ok r.state.accessToken,
          requests := r.requests, pending := p.2 }
    | .error e =>
        { state := r.state, result := .error e,
          requests := r.requests, pending := p.2 }
  else
    { state := s, result := .ok s.accessToken, requests := 0, pending := os }

/-- What the provider answers to one authorization-code exchange: a success
body or a rejection carrying an error payload. -/
inductive ExchangeOutcome where
  | success (r : TokenResponse)
  | rejection (payload : String)
deriving Repr, DecidableEq

/-- Result of one handleCallback call: the state after it and its outcome
(auth.js returns true on success, throws on failure). -/
structure CallbackResult where
  state : AuthState
  result : Except AuthError Bool
deriving Repr

/-- AuthManager.handleCallback (src/src/auth.js lines 70-98): exchange the
code at the token endpoint; on success save the response and return true;
on any failure throw Error with the fixed message Authentication failed
(the provider payload is only logged, lines 94-97). -/
def handleCallback (now : Int) (outcome : ExchangeOutcome) (s : AuthState) :
    CallbackResult :=
  match outcome with
  | .success r => { state := saveTokens now s r, result := .ok true }
  | .rejection _ => { state := s, result := .error .authFailed }

/-- What one issued data request answers: a success body or an HTTP error
with a status code. -/
inductive ReqOutcome where
  | success (body : String)
  | failure (status : Nat)
deriving Repr, DecidableEq

/-- An error escaping makeAuthenticatedRequest: either a thrown auth.js
error or the propagated HTTP error of a request. -/
inductive MarError where
  | auth (e : AuthError)
  | http (status : Nat)
deriving Repr, DecidableEq

/-- Result of one makeAuthenticatedRequest call: final state, outcome (the
successful response body or the propagated error), how many data-request
attempts were issued, and how many refresh requests reached the provider. -/
structure MarResult where
  state : AuthState
  result : Except MarError String
  attempts : Nat
  refreshes : Nat
deriving Repr

/-- AuthManager.makeAuthenticatedRequest (src/src/auth.js lines 220-267):
get headers via getAccessToken, issue the request; on a 401 error response
refresh once, rebuild headers via getAccessToken, and return the retried
request directly (its outcome, success or failure, is not caught again);
any non-401 error is rethrown unchanged. `first` and `second` are what the
transport answers to the first and the retried request. -/
def makeAuthenticatedRequest (now : Int) (os : List RefreshOutcome)
    (first second : ReqOutcome) (s : AuthState) : MarResult :=
  let f := getAccessToken now os s
  match f.result with
  | .error e =>
      { state := f.state, result := .error (.auth e), attempts := 0,
        refreshes := f.requests }
  | .ok _ =>
      match first with
      | .success body =>
          { state := f.state, result := .ok body, attempts := 1,
            refreshes := f.requests }
      | .failure status =>
          if status = 401 then
            let p := takeOutcome f.pending
            let r := refreshAccessToken now p.1 f.state
            match r.result with
            | .error e =>
                { state := r.state, result := .error (.auth e), attempts := 1,
                  refreshes := f.requests + r.requests }
            | .ok _ =>
                let f2 := getAccessToken now p.2 r.state
                match f2.result with
                | .error e =>
                    { state := f2.state, result := .error (.auth e),
                      attempts := 1,
                      refreshes := f.requests + r.requests + f2.requests }
                | .ok _ =>
                    match second with
                    | .success body =>
                        { state := f2.state, result := .ok body, attempts := 2,
                          refreshes := f.requests + r.requests + f2.requests }
                    | .failure st2 =>
                        { state := f2.state, result := .error (.http st2),
                          attempts := 2,
                          refreshes := f.requests + r.requests + f2.requests }
          else
            { state := f.state, result := .error (.http status), attempts := 1,
              refreshes := f.requests }

/-! ### Interleaving model for concurrent getAccessToken calls

auth.js runs on the single-threaded JavaScript event loop: an async
function executes synchronously until its first await and yields there.
Inside getAccessToken the only suspension points on the expired-token path
are inside refreshAccessToken, the first being the awaited axios.post that
sends the refresh request. A caller therefore runs the isAuthenticated
check, the expiry check and the refresh-token check atomically, sends its
request, and suspends until the response arrives. There is no in-flight
guard anywhere in auth.js: nothing records that a refresh is pending. -/

/-- The shared state seen by all concurrent callers: the AuthManager
instance fields plus the count of refresh requests the provider token
endpoint has received. -/
structure Global where
  auth : AuthState
  refreshRequests : Nat
deriving Repr

/-- Where one caller of getAccessToken stands: suspended at the awaited
refresh request, or completed with its result. -/
inductive CallerPhase where
  | awaitingRefresh
  | done (result : Except AuthError (Option String))
deriving Repr

/-- Run one getAccessToken call synchronously from its start to its first
suspension point or completion: the not-authenticated throw, the unexpired
fast path and the no-refresh-token throw all complete without suspending;
the expired path sends the refresh request (counted by the provider) and
suspends. -/
def startCall (now : Int) (g : Global) : Global × CallerPhase :=
  if g.auth.isAuthenticated = false then
    (g, .done (.error .notAuthenticated))
  else if isTokenExpired now g.auth then
    if strFalsy g.auth.refreshToken then
      (g, .done (.error .noRefreshToken))
    else
      ({ auth := g.auth, refreshRequests := g.refreshRequests + 1 },
       .awaitingRefresh)
  else
    (g, .done (.ok g.auth.accessToken))

/-- Resume one suspended caller when its refresh response arrives: on a
success body run saveTokens and return the accessToken field; on a failure
run clearTokens and throw, exactly as the catch clause of
refreshAccessToken does. -/
def deliverRefresh (now : Int) (outcome : RefreshOutcome) (g : Global) :
    Global × CallerPhase :=
  match outcome with
  | .success r =>
      let s := saveTokens now g.auth r
      ({ auth := s, refreshRequests := g.refreshRequests },
       .done (.ok s.accessToken))
  | _ =>
      ({ auth := clearTokens g.auth, refreshRequests := g.refreshRequests },
       .done (.error .refreshFailed))

/-- Resume a caller in phase `p` with provider answer `o` if it is
suspended; a completed caller is left as is. -/
def resumeCaller (now : Int) (o : RefreshOutcome) (g : Global)
    (p : CallerPhase) : Global × CallerPhase :=
  match p with
  | .awaitingRefresh => deliverRefresh now o g
  | .done r => (g, .done r)

/-- Two concurrent getAccessToken calls under the schedule the event loop
produces when both arrive while the token is expired: caller A runs to its
await, caller B runs to its await, then the two responses arrive in order
(answers o1 to A, o2 to B). Returns the final shared state and both
results. -/
def twoConcurrentCalls (now : Int) (o1 o2 : RefreshOutcome) (s : AuthState) :
    Global × CallerPhase × CallerPhase :=
  let a1 := startCall now { auth := s, refreshRequests := 0 }
  let b1 := startCall now a1.1
  let a2 := resumeCaller now o1 b1.1 a1.2
  let b2 := resumeCaller now o2 a2.1 b1.2
  (b2.1, a2.2, b2.2)

/-! ### Concrete fixtures used to evaluate the model -/

/-- The state of a freshly constructed AuthManager before any token is
loaded (constructor of src/src/auth.js, lines 18-21). -/
def freshState : AuthState :=
  { accessToken := none
    refreshToken := none
    tokenExpiry := none
    isAuthenticated := false
    store := none }

/-- An authenticated state holding access token AT1, refresh token RT1 and
expiry timestamp 500 ms, with the matching persisted record. -/
def stateAT1 : AuthState :=
  { accessToken := some "AT1"
    refreshToken := some "RT1"
    tokenExpiry := some 500
    isAuthenticated := true
    store := some { accessToken := some "AT1", refreshToken := some "RT1", expiresAt := 500 } }

/-- A provider success body carrying AT1, RT1 and expires_in 3600. -/
def respAT1 : TokenResponse :=
  { access_token := some "AT1", refresh_token := some "RT1", expires_in := some 3600 }

/-- A provider success body carrying AT2 and expires_in 3600 but no
refresh token. -/
def respAT2 : TokenResponse :=
  { access_token := some "AT2", refresh_token := none, expires_in := some 3600 }

/-! ### Claims -/

/-- C4: a token saved at time T from a response with expires_in 3600 under
the 300-second skew margin gets expiresAt = T + 3300 seconds (the skewed
value, never the raw TTL), isTokenExpired is false at every instant
strictly before T + 3300 s and true from T + 3300 s onward. Times are in
milliseconds, as in the source. -/
theorem c4_skew_invariant (T t : Int) (s : AuthState) (r : TokenResponse)
    (hr : r.expires_in = some 3600) :
    (saveTokens T s r).tokenExpiry = some (T + 3300 * 1000) ∧
    (t < T + 3300 * 1000 → isTokenExpired t (saveTokens T s r) = false) ∧
    (T + 3300 * 1000 ≤ t → isTokenExpired t (saveTokens T s r) = true) ∧
    (∀ r2 : TokenResponse, (saveTokens T s r2).tokenExpiry
      = some (T + (effectiveExpiresIn r2 - 300) * 1000)) := by
  refine ⟨?_, fun h => ?_, fun h => ?_, fun r2 => rfl⟩
  · simp [saveTokens, effectiveExpiresIn, hr]
  · simp only [saveTokens, isTokenExpired, effectiveExpiresIn, hr]
    simp
    omega
  · simp only [saveTokens, isTokenExpired, effectiveExpiresIn, hr]
    simp
    omega

/-- Witness for C4 at T = 0 with the concrete response respAT1, checked at
the instants 3299999 ms and 3300000 ms. -/
theorem c4_skew_invariant_witness :
    (saveTokens 0 freshState respAT1).tokenExpiry = some 3300000 ∧
    isTokenExpired 3299999 (saveTokens 0 freshState respAT1) = false ∧
    isTokenExpired 3300000 (saveTokens 0 freshState respAT1) = true := by
  have h := c4_skew_invariant 0 3299999 freshState respAT1 rfl
  have h2 := c4_skew_invariant 0 3300000 freshState respAT1 rfl
  exact ⟨h.1, h.2.1 (by omega), h2.2.2.1 (by omega)⟩

/-- C10: a token response whose expires_in is absent or falsy (0) gets the
default TTL 3600, so saveTokens sets expiry to now + 3300 seconds, marks
the state authenticated, and the saved token is not already expired at
save time. -/
theorem c10_default_ttl (now : Int) (s : AuthState) (r : TokenResponse)
    (hr : r.expires_in = none ∨ r.expires_in = some 0) :
    (saveTokens now s r).tokenExpiry = some (now + 3300 * 1000) ∧
    (saveTokens now s r).isAuthenticated = true ∧
    isTokenExpired now (saveTokens now s r) = false := by
  rcases hr with hr | hr <;>
    refine ⟨?_, ?_, ?_⟩ <;>
    simp [saveTokens, isTokenExpired, effectiveExpiresIn, hr]

/-- Witness for C10 at now = 1000 with a response that has no expires_in
field. -/
theorem c10_default_ttl_witness :
    (saveTokens 1000 stateAT1 { access_token := some "AT2", refresh_token := none, expires_in := none }).tokenExpiry = some 3301000 := by
  have h := c10_default_ttl 1000 stateAT1
    { access_token := some "AT2", refresh_token := none, expires_in := none }
    (Or.inl rfl)
  exact h.1

/-- C5: saveTokens always overwrites the access token and the expiry from
the response, and keeps the previously stored refresh token when the
response carries none. -/
theorem c5_save_frame (now : Int) (s : AuthState) (r : TokenResponse) :
    (saveTokens now s r).accessToken = r.access_token ∧
    (saveTokens now s r).tokenExpiry = some (now + (effectiveExpiresIn r - 300) * 1000) ∧
    (r.refresh_token = none → (saveTokens now s r).refreshToken = s.refreshToken) := by
  refine ⟨rfl, rfl, fun h => ?_⟩
  simp [saveTokens, orKeepRefresh, h]

/-- Witness for C5: the scenario of the spec — exchange yields AT1/RT1,
a refresh answers with AT2 and no refresh token; the record then holds
accessToken AT2 and refreshToken still RT1. -/
theorem c5_save_frame_witness :
    (saveTokens 3400000 (saveTokens 0 freshState respAT1) respAT2).accessToken = some "AT2" ∧
    (saveTokens 3400000 (saveTokens 0 freshState respAT1) respAT2).refreshToken = some "RT1" := by
  have h := c5_save_frame 3400000 (saveTokens 0 freshState respAT1) respAT2
  exact ⟨h.1, (h.2.2 rfl).trans rfl⟩

/-- C6: refreshAccessToken with no stored refresh token throws the
AuthenticationError No refresh token available at once, sends zero
requests to the provider, and leaves the state untouched. -/
theorem c6_no_refresh_token_fast_fail (now : Int) (o : RefreshOutcome)
    (s : AuthState) (h : s.refreshToken = none) :
    (refreshAccessToken now o s).result = .error .noRefreshToken ∧
    (refreshAccessToken now o s).requests = 0 ∧
    (refreshAccessToken now o s).state = s := by
  refine ⟨?_, ?_, ?_⟩ <;> simp [refreshAccessToken, strFalsy, h]

/-- Witness for C6 on the fresh unauthenticated state, with a provider
that would answer successfully if asked. -/
theorem c6_no_refresh_token_fast_fail_witness :
    (refreshAccessToken 0 (.success respAT1) freshState).requests = 0 ∧
    (refreshAccessToken 0 (.success respAT1) freshState).result = .error .noRefreshToken := by
  have h := c6_no_refresh_token_fast_fail 0 (.success respAT1) freshState rfl
  exact ⟨h.2.1, h.1⟩

/-- C2 (behaviour of the code at the claimed scenario): a refresh answered
by a transient network / 5xx failure does NOT leave the stored record
intact — the catch clause of refreshAccessToken (src/src/auth.js lines
132-138) clears the in-memory fields and the persisted record and throws
the re-authenticate error, for any state that had a refresh token. -/
theorem c2_transient_failure_clears_state (now : Int) (s : AuthState)
    (h : strFalsy s.refreshToken = false) :
    (refreshAccessToken now .networkError s).state = clearTokens s ∧
    (refreshAccessToken now .networkError s).state.store = none ∧
    (refreshAccessToken now .networkError s).state.refreshToken = none ∧
    (refreshAccessToken now .networkError s).result = .error .refreshFailed := by
  refine ⟨?_, ?_, ?_, ?_⟩ <;> simp [refreshAccessToken, h, clearTokens]

/-- Witness for C2: on the concrete populated state a transient failure
erases the record (the resulting state differs from the original) and the
propagated error is the re-authenticate one, not a retryable error. -/
theorem c2_transient_failure_clears_state_witness :
    strFalsy stateAT1.refreshToken = false ∧
    (refreshAccessToken 1000 .networkError stateAT1).state ≠ stateAT1 ∧
    (refreshAccessToken 1000 .networkError stateAT1).state.store = none := by
  have h := c2_transient_failure_clears_state 1000 stateAT1 (by decide)
  refine ⟨by decide, ?_, h.2.1⟩
  rw [h.1]
  decide

/-- C7: a refresh rejected with a grant-invalid payload (invalid_grant)
clears the record entirely — in-memory fields null, persisted store absent
— and a following getAccessToken call fails with the not-authenticated
AuthenticationError while sending zero requests to the provider. -/
theorem c7_revocation_clears_state (now now2 : Int) (payload : String)
    (s : AuthState) (os : List RefreshOutcome)
    (h : strFalsy s.refreshToken = false) :
    (refreshAccessToken now (.invalidGrant payload) s).state.store = none ∧
    (refreshAccessToken now (.invalidGrant payload) s).state.accessToken = none ∧
    (refreshAccessToken now (.invalidGrant payload) s).state.refreshToken = none ∧
    (refreshAccessToken now (.invalidGrant payload) s).result = .error .refreshFailed ∧
    (getAccessToken now2 os (refreshAccessToken now (.invalidGrant payload) s).state).result
      = .error .notAuthenticated ∧
    (getAccessToken now2 os (refreshAccessToken now (.invalidGrant payload) s).state).requests
      = 0 := by
  refine ⟨?_, ?_, ?_, ?_, ?_, ?_⟩ <;>
    simp [refreshAccessToken, h, clearTokens, getAccessToken]

/-- Witness for C7 on the concrete populated state with the payload
invalid_grant. -/
theorem c7_revocation_clears_state_witness :
    (refreshAccessToken 1000 (.invalidGrant "invalid_grant") stateAT1).state.store = none ∧
    (getAccessToken 2000 [] (refreshAccessToken 1000 (.invalidGrant "invalid_grant") stateAT1).state).result
      = .error .notAuthenticated := by
  have h := c7_revocation_clears_state 1000 2000 "invalid_grant" stateAT1 [] (by decide)
  exact ⟨h.1, h.2.2.2.2.1⟩

/-- C8: getAccessToken fails with the not-authenticated
AuthenticationError when no record is present; with a present but expired
record it refreshes first (one provider request) and returns the newly
saved access token; with a present unexpired record it returns the stored
access token with zero provider requests. -/
theorem c8_get_access_token (now : Int) (os : List RefreshOutcome)
    (s : AuthState) :
    (s.isAuthenticated = false →
      (getAccessToken now os s).result = .error .notAuthenticated ∧
      (getAccessToken now os s).requests = 0 ∧
      (getAccessToken now os s).state = s) ∧
    (s.isAuthenticated = true → isTokenExpired now s = true →
      strFalsy s.refreshToken = false →
      ∀ (r : TokenResponse) (rest : List RefreshOutcome),
        os = RefreshOutcome.success r :: rest →
        (getAccessToken now os s).state = saveTokens now s r ∧
        (getAccessToken now os s).result = .ok (saveTokens now s r).accessToken ∧
        (getAccessToken now os s).requests = 1) ∧
    (s.isAuthenticated = true → isTokenExpired now s = false →
      (getAccessToken now os s).result = .ok s.accessToken ∧
      (getAccessToken now os s).requests = 0 ∧
      (getAccessToken now os s).state = s) := by
  refine ⟨fun h1 => ?_, fun h1 h2 h3 r rest hos => ?_, fun h1 h2 => ?_⟩
  · refine ⟨?_, ?_, ?_⟩ <;> simp [getAccessToken, h1]
  · subst hos
    refine ⟨?_, ?_, ?_⟩ <;>
      simp [getAccessToken, h1, h2, takeOutcome, refreshAccessToken, h3]
  · refine ⟨?_, ?_, ?_⟩ <;> simp [getAccessToken, h1, h2]

/-- Witness for C8: the three branches evaluated on concrete states — the
fresh unauthenticated state, the expired stateAT1 refreshed with respAT2,
and an unexpired stateAT1 read at time 100. -/
theorem c8_get_access_token_witness :
    (getAccessToken 0 [] freshState).result = .error .notAuthenticated ∧
    ((getAccessToken 1000 [RefreshOutcome.success respAT2] stateAT1).result
        = .ok (some "AT2") ∧
      (getAccessToken 1000 [RefreshOutcome.success respAT2] stateAT1).requests = 1) ∧
    ((getAccessToken 100 [] stateAT1).result = .ok (some "AT1") ∧
      (getAccessToken 100 [] stateAT1).requests = 0) := by
  have ha := (c8_get_access_token 0 [] freshState).1 rfl
  have hb := (c8_get_access_token 1000 [RefreshOutcome.success respAT2] stateAT1).2.1
    rfl (by decide) (by decide) respAT2 [] rfl
  have hc := (c8_get_access_token 100 [] stateAT1).2.2 rfl (by decide)
  exact ⟨ha.1, ⟨hb.2.1.trans (by rfl), hb.2.2⟩, ⟨hc.1.trans (by rfl), hc.2.1⟩⟩

/-- saveTokens always marks the state authenticated. -/
theorem saveTokens_isAuthenticated (now : Int) (s : AuthState)
    (r : TokenResponse) : (saveTokens now s r).isAuthenticated = true := rfl

/-- A token saved from a response whose effective TTL exceeds the
300-second skew margin is not expired at the instant it was saved. -/
theorem saveTokens_not_expired (now : Int) (s : AuthState) (r : TokenResponse)
    (h : 300 < effectiveExpiresIn r) :
    isTokenExpired now (saveTokens now s r) = false := by
  simp [saveTokens, isTokenExpired]
  omega

/-- C3: a request whose first attempt is answered 401, issued from an
authenticated unexpired state, forces exactly one refresh and exactly one
retried attempt (two attempts in total, never a third); the outcome of the
retried attempt — in particular a second 401 — is propagated to the caller
unmodified. The provider answers the forced refresh with a body whose
effective TTL clears the skew margin. -/
theorem c3_retry_once_on_401 (now : Int) (s : AuthState) (r : TokenResponse)
    (rest : List RefreshOutcome) (second : ReqOutcome)
    (h1 : s.isAuthenticated = true) (h2 : isTokenExpired now s = false)
    (h3 : strFalsy s.refreshToken = false)
    (h4 : 300 < effectiveExpiresIn r) :
    (makeAuthenticatedRequest now (RefreshOutcome.success r :: rest)
        (.failure 401) second s).refreshes = 1 ∧
    (makeAuthenticatedRequest now (RefreshOutcome.success r :: rest)
        (.failure 401) second s).attempts = 2 ∧
    (∀ st2, second = .failure st2 →
      (makeAuthenticatedRequest now (RefreshOutcome.success r :: rest)
        (.failure 401) second s).result = .error (.http st2)) ∧
    (∀ body, second = .success body →
      (makeAuthenticatedRequest now (RefreshOutcome.success r :: rest)
        (.failure 401) second s).result = .ok body) := by
  have hAuth2 := saveTokens_isAuthenticated now s r
  have hexp2 := saveTokens_not_expired now s r h4
  refine ⟨?_, ?_, fun st2 hs => ?_, fun body hs => ?_⟩
  · cases second <;>
      simp [makeAuthenticatedRequest, getAccessToken, h1, h2, h3, takeOutcome,
        refreshAccessToken, hAuth2, hexp2]
  · cases second <;>
      simp [makeAuthenticatedRequest, getAccessToken, h1, h2, h3, takeOutcome,
        refreshAccessToken, hAuth2, hexp2]
  · subst hs
    simp [makeAuthenticatedRequest, getAccessToken, h1, h2, h3, takeOutcome,
      refreshAccessToken, hAuth2, hexp2]
  · subst hs
    simp [makeAuthenticatedRequest, getAccessToken, h1, h2, h3, takeOutcome,
      refreshAccessToken, hAuth2, hexp2]

/-- Witness for C3: from the unexpired stateAT1 at time 100, a 401 first
answer followed by a 401 on the retry yields one refresh, two attempts and
the propagated 401. -/
theorem c3_retry_once_on_401_witness :
    (makeAuthenticatedRequest 100 [RefreshOutcome.success respAT2]
        (.failure 401) (.failure 401) stateAT1).refreshes = 1 ∧
    (makeAuthenticatedRequest 100 [RefreshOutcome.success respAT2]
        (.failure 401) (.failure 401) stateAT1).attempts = 2 ∧
    (makeAuthenticatedRequest 100 [RefreshOutcome.success respAT2]
        (.failure 401) (.failure 401) stateAT1).result = .error (.http 401) := by
  have h := c3_retry_once_on_401 100 stateAT1 respAT2 [] (.failure 401)
    rfl (by decide) (by decide) (by decide)
  exact ⟨h.1, h.2.1, h.2.2.1 401 rfl⟩

/-- C9 counterexample: the error thrown by handleCallback on a provider
rejection does not carry the provider error payload — two rejections with
different payloads produce the very same result, the fixed error whose
message is Authentication failed (src/src/auth.js line 96 throws a generic
Error and only logs the payload). -/
theorem c9_counterexample :
    handleCallback 0 (.rejection "invalid_grant") freshState =
      handleCallback 0 (.rejection "access_denied") freshState ∧
    (handleCallback 0 (.rejection "invalid_grant") freshState).result
      = .error .authFailed ∧
    errorMessage .authFailed = "Authentication failed" :=
  ⟨rfl, rfl, rfl⟩

/-- C9 (amended): on a provider rejection handleCallback fails with the
fixed AuthenticationError Authentication failed, the payload being only
logged, and the state is left exactly as it was (nothing written, nothing
persisted); on success the record is saved and persisted and the state
becomes authenticated. -/
theorem c9_handle_callback (now : Int) (s : AuthState) :
    (∀ payload : String,
      (handleCallback now (.rejection payload) s).state = s ∧
      (handleCallback now (.rejection payload) s).result = .error .authFailed) ∧
    (∀ r : TokenResponse,
      (handleCallback now (.success r) s).state = saveTokens now s r ∧
      (handleCallback now (.success r) s).state.isAuthenticated = true ∧
      (handleCallback now (.success r) s).state.store =
        some { accessToken := r.access_token
               refreshToken := orKeepRefresh r.refresh_token s.refreshToken
               expiresAt := now + (effectiveExpiresIn r - 300) * 1000 } ∧
      (handleCallback now (.success r) s).result = .ok true) :=
  ⟨fun _ => ⟨rfl, rfl⟩, fun _ => ⟨rfl, rfl, rfl, rfl⟩⟩

/-- C1 (behaviour of the code at the claimed scenario): there is no refresh
coalescing — whenever two getAccessToken calls both begin while the token
is expired and a refresh token is present, each caller reaches its own
awaited axios.post before either response arrives, so the provider token
endpoint receives two refresh requests, not one, whatever it answers. -/
theorem c1_no_refresh_coalescing (now : Int) (o1 o2 : RefreshOutcome)
    (s : AuthState) (h1 : s.isAuthenticated = true)
    (h2 : isTokenExpired now s = true) (h3 : strFalsy s.refreshToken = false) :
    (twoConcurrentCalls now o1 o2 s).1.refreshRequests = 2 := by
  cases o1 <;> cases o2 <;>
    simp [twoConcurrentCalls, startCall, h1, h2, h3, resumeCaller,
      deliverRefresh]

/-- Witness for C1: the expired stateAT1 at time 1000 with both refreshes
answered successfully still produces two provider refresh requests. -/
theorem c1_no_refresh_coalescing_witness :
    (twoConcurrentCalls 1000 (.success respAT2) (.success respAT2)
      stateAT1).1.refreshRequests = 2 :=
  c1_no_refresh_coalescing 1000 (.success respAT2) (.success respAT2) stateAT1
    rfl (by decide) (by decide)

end AutodeskBuild
